import Mathlib

/-!
Verification of the Cultura CDMX scraping pipeline.

This file gives a shallow embedding of the Python sources
`playwright_card_scrape/app.py`, `cultura_check_page/app.py` and
`duckdb_handler/app.py`.  Browser and network operations are modelled by
explicit environments (oracles): an environment assigns to every invocation of
a fallible operation either a success value or the text of the raised
exception.  Python dictionaries are modelled as association lists with
insertion-order/override semantics, Python floats that only ever get scaled by
powers of two are modelled as rationals, and a function that can raise an
uncaught exception returns `Except String`.
-/

namespace Cultura

/-- JSON-like values, exactly the shapes the scraper can produce: the null
sentinel, integers (page and card numbers), strings, string arrays
(description and info) and the schedule object with nullable date and hour. -/
inductive JVal where
  | null
  | num (n : Int)
  | str (s : String)
  | strList (xs : List String)
  | sched (date : Option String) (hour : Option String)
deriving DecidableEq

/-- A serialized record: a Python dict modelled as an association list in
insertion order. -/
abbrev Record := List (String × JVal)

/-- Python dict assignment `m[k] = v`: overrides in place when the key exists,
otherwise appends at the end (insertion order preserved). -/
def dictInsert (m : Record) (k : String) (v : JVal) : Record :=
  if m.any (fun q => q.1 = k) then
    m.map (fun q => if q.1 = k then (k, v) else q)
  else
    m ++ [(k, v)]

/-- Python dict unpacking `\x7b**m1, **m2\x7d`: insert the pairs of `m2` into
`m1` left to right. -/
def dictMerge (m1 m2 : Record) : Record :=
  m2.foldl (fun acc q => dictInsert acc q.1 q.2) m1

/-- `_empty_event_payload(detail_url)` from `playwright_card_scrape/app.py`
lines 20 to 30: every extraction field explicitly present with the null
sentinel, and the given `detail_url` value. -/
def emptyEventPayload (detailUrl : JVal) : Record :=
  [("detail_url", detailUrl),
   ("description", JVal.null),
   ("info", JVal.null),
   ("schedule", JVal.null),
   ("location", JVal.null),
   ("banner_url", JVal.null),
   ("evento", JVal.null),
   ("recinto", JVal.null)]

/-- `RETRYABLE_ERROR_FRAGMENTS` from the sources. -/
def retryableErrorFragments : List String :=
  [("Execution context was destroyed"),
   ("Navigation failed"),
   ("Target page, context or browser has been closed"),
   ("Timeout")]

/-- Substring test used by `_is_retryable_error`: `fragment in err_text`. -/
def strContainsSub (hay sub : String) : Bool :=
  hay.toList.tails.any (fun t => sub.toList.isPrefixOf t)

/-- `_is_retryable_error(exc)`: the error text matches one of the fixed
transient-fault fragments. -/
def isRetryableError (errText : String) : Bool :=
  retryableErrorFragments.any (fun fragment => strContainsSub errText fragment)

/-- Outcome of one invocation of a fallible operation: a returned value, or
the text of the raised exception. -/
inductive Attempt (α : Type) where
  | ok (a : α)
  | err (e : String)
deriving DecidableEq

deriving instance DecidableEq for Except

/-- Observable trace of one run of the retry helper (`_retry_async` in
`playwright_card_scrape/app.py` lines 62 to 90, identically `_retry_sync` in
`cultura_check_page/app.py` lines 42 to 71): final result, number of times the
underlying operation was invoked, the attempt numbers for which a
`retry_scheduled` event was logged (one log per scheduled retry, which is also
the number of `retry_attempts` metric bumps), and the backoff sleep durations
in seconds. -/
structure RetryTrace (α : Type) where
  result : Except String α
  calls : Nat
  logs : List Nat
  sleeps : List ℚ
deriving DecidableEq

/-- The guard `if retryable_predicate and not retryable_predicate(exc)` of
the retry helpers: with a predicate supplied, a non-matching error re-raises
immediately. -/
def nonRetryable (p? : Option (String → Bool)) (e : String) : Bool :=
  match p? with
  | some p => !(p e)
  | none => false

/-- Body of the retry loop `for attempt in range(1, retries + 1)`.  The `fuel`
argument only forces termination; `retryCall` supplies `fuel = retries` so the
loop runs attempts `1 .. retries` exactly as in the source.  A failing attempt
with a non-matching error, or a failing final attempt, re-raises; otherwise
the helper logs `retry_scheduled`, sleeps `base_delay * 2 ** (attempt - 1)`
and continues. -/
def retryLoop (p? : Option (String → Bool)) (baseDelay : ℚ) (retries : Nat)
    (env : Nat → Attempt α) : Nat → Nat → RetryTrace α
  | _, 0 => ⟨Except.error ("retry loop made no attempts"), 0, [], []⟩
  | attempt, fuel + 1 =>
    match env attempt with
    | Attempt.ok a => ⟨Except.ok a, 1, [], []⟩
    | Attempt.err e =>
      if nonRetryable p? e then
        ⟨Except.error e, 1, [], []⟩
      else if attempt = retries then
        ⟨Except.error e, 1, [], []⟩
      else
        let rest := retryLoop p? baseDelay retries env (attempt + 1) fuel
        ⟨rest.result, rest.calls + 1, attempt :: rest.logs,
          baseDelay * 2 ^ (attempt - 1) :: rest.sleeps⟩

/-- One run of the retry helper: attempts start at 1. -/
def retryCall (p? : Option (String → Bool)) (baseDelay : ℚ) (retries : Nat)
    (env : Nat → Attempt α) : RetryTrace α :=
  retryLoop p? baseDelay retries env 1 retries

/-- The value produced by the browser-side extraction script of
`scrape_inner_page` when the detail wrapper exists: each field is a value or
null (an absent DOM element resolves to null on the Python side). -/
structure InnerData where
  description : Option (List String)
  info : Option (List String)
  schedule : Option (Option String × Option String)
  location : Option String
  banner_url : Option String
  evento : Option String
  recinto : Option String
deriving DecidableEq

/-- Helper embedding an optional string as a JSON value. -/
def jstr : Option String → JVal
  | none => JVal.null
  | some s => JVal.str s

/-- Helper embedding an optional string list as a JSON value. -/
def jstrList : Option (List String) → JVal
  | none => JVal.null
  | some xs => JVal.strList xs

/-- Helper embedding the optional schedule object as a JSON value. -/
def jsched : Option (Option String × Option String) → JVal
  | none => JVal.null
  | some q => JVal.sched q.1 q.2

/-- The dict built by the extraction script, keys in the insertion order of
the script (`d.description`, `d.info`, `d.schedule`, `d.location`,
`d.banner_url`, `d.evento`, `d.recinto`); note it has no `detail_url` key. -/
def innerToDict (d : InnerData) : Record :=
  [("description", jstrList d.description),
   ("info", jstrList d.info),
   ("schedule", jsched d.schedule),
   ("location", jstr d.location),
   ("banner_url", jstr d.banner_url),
   ("evento", jstr d.evento),
   ("recinto", jstr d.recinto)]

/-- Loop body of `scrape_inner_page` (`playwright_card_scrape/app.py` lines
114 to 173).  The environment gives the outcome of each `page.evaluate`
attempt: `ok none` models the script returning null (detail wrapper missing,
degraded via `data or _empty_event_payload()`), `ok (some d)` a successful
extraction, `err e` a raised exception.  A retryable error with attempts left
sleeps `0.8 * attempt` and continues; any other exception is caught, printed
and degraded to the empty payload, so no branch re-raises.  `fuel` starts at
`retries` and only forces termination; the exhausted-loop fallthrough also
returns the empty payload. -/
def scrapeInnerPageLoop (env : Nat → Attempt (Option InnerData)) (retries : Nat) :
    Nat → Nat → Record
  | _, 0 => emptyEventPayload JVal.null
  | attempt, fuel + 1 =>
    match env attempt with
    | Attempt.ok data =>
      match data with
      | none => emptyEventPayload JVal.null
      | some d => innerToDict d
    | Attempt.err e =>
      if isRetryableError e && decide (attempt < retries) then
        scrapeInnerPageLoop env retries (attempt + 1) fuel
      else
        emptyEventPayload JVal.null

/-- `scrape_inner_page(page, retries=2)`: total (it never propagates an
exception), returning the extracted dict or the canonical all-null payload. -/
def scrapeInnerPage (env : Nat → Attempt (Option InnerData)) (retries : Nat) : Record :=
  scrapeInnerPageLoop env retries 1 retries

/-- The record appended on the success path of `scrape_page_sequential`
(lines 241 to 246): page number and card index, the empty payload carrying
`detail_url = page.url`, then the extracted data unpacked last (so extraction
keys and, when the extraction degraded to the empty payload, also
`detail_url`, are overridden by it). -/
def successRecord (p : Int) (i : Nat) (detailUrl : String) (data : Record) : Record :=
  dictMerge
    (dictMerge [("page_number", JVal.num p), ("card_index", JVal.num (Int.ofNat i))]
      (emptyEventPayload (JVal.str detailUrl)))
    data

/-- The record appended on the failure paths of `scrape_page_sequential`
(lines 259 to 292): page number and card index, then the empty payload with a
null `detail_url`. -/
def failedRecord (p : Int) (i : Nat) : Record :=
  dictMerge [("page_number", JVal.num p), ("card_index", JVal.num (Int.ofNat i))]
    (emptyEventPayload JVal.null)

/-- Environment describing how the browser behaves while one card is
processed in `scrape_page_sequential`: `pre` is the exception (if any) raised
by `scroll_into_view_if_needed`, `click` or the detail-container
`wait_for_selector`; `detailUrl` is `page.url` on the detail view; `inner`
drives `scrape_inner_page`; `goBack` gives the outcomes of the `page.go_back`
attempts inside its retry helper; `postScroll` is the exception (if any) of
the `scroll_to_bottom` after a successful return; `recovery` gives the
outcomes of the recovery `page.goto` attempts in the except handler and
`recoveryScroll` the exception (if any) of the `scroll_to_bottom` after it. -/
structure CardEnv where
  pre : Option String
  detailUrl : String
  inner : Nat → Attempt (Option InnerData)
  goBack : Nat → Attempt Unit
  postScroll : Option String
  recovery : Nat → Attempt Unit
  recoveryScroll : Option String

/-- Tail of the two except handlers (lines 267 to 275 and 284 to 292): retry
`page.goto(url)` with 2 attempts and base delay 0.8, then `scroll_to_bottom`.
Returns the exception that escapes the handler, if any (it would propagate
out of the card loop and abort the page crawl). -/
def recoverAfterFailure (c : CardEnv) : Option String :=
  match (retryCall (some isRetryableError) ((8 : ℚ)/10) 2 c.recovery).result with
  | Except.error e => some e
  | Except.ok _ => c.recoveryScroll

/-- One iteration of the card loop of `scrape_page_sequential` (lines 229 to
292) for card index `i`: returns the records appended to `results` for this
card, and the exception (if any) escaping the iteration.  On the success path
the success record is appended, then `page.go_back` runs under the retry
helper (3 attempts, base delay 0.7) followed by `scroll_to_bottom`; an
exception from either is caught by the except handlers, which append a second,
all-null record for the same card index before running the recovery
navigation.  A pre-extraction exception appends only the all-null record. -/
def processCard (p : Int) (i : Nat) (c : CardEnv) : List Record × Option String :=
  match c.pre with
  | some _ => ([failedRecord p i], recoverAfterFailure c)
  | none =>
    let succ := successRecord p i c.detailUrl (scrapeInnerPage c.inner 2)
    match (retryCall (some isRetryableError) ((7 : ℚ)/10) 3 c.goBack).result with
    | Except.error _ => ([succ, failedRecord p i], recoverAfterFailure c)
    | Except.ok _ =>
      match c.postScroll with
      | some _ => ([succ, failedRecord p i], recoverAfterFailure c)
      | none => ([succ], none)

/-- The card loop `for i in range(card_count)`: accumulates appended records;
an exception escaping an iteration propagates and the whole function raises
(the accumulated list is lost to the caller). -/
def scrapeCardsFrom (p : Int) (env : Nat → CardEnv) :
    Nat → Nat → List Record → Except String (List Record)
  | _, 0, acc => Except.ok acc
  | i, n + 1, acc =>
    match processCard p i (env i) with
    | (_, some e) => Except.error e
    | (recs, none) => scrapeCardsFrom p env (i + 1) n (acc ++ recs)

/-- Environment for the preamble of `scrape_page_sequential` (lines 196 to
227): outcomes of the `context.new_page` retry attempts, of the initial
`page.goto` retry attempts, and the exceptions (if any) raised by the settle
scroll and by the card-list `wait_for_selector`. -/
structure PreEnv where
  newPage : Nat → Attempt Unit
  goto : Nat → Attempt Unit
  scroll : Option String
  waitSel : Option String

/-- `scrape_page_sequential(browser, page_number)` (lines 175 to 310): open a
page (retry helper, 3 attempts, base delay 0.7), load the listing (retry
helper, 3 attempts, base delay 0.8), settle-scroll, wait for the card list,
read `card_count` from the locator, then run the card loop.  An uncaught
exception anywhere makes the whole call raise.  `cardCount` is the count the
locator reports at enumeration time. -/
def scrapePageSequential (p : Int) (pre : PreEnv) (cardCount : Nat)
    (env : Nat → CardEnv) : Except String (List Record) :=
  match (retryCall (some isRetryableError) ((7 : ℚ)/10) 3 pre.newPage).result with
  | Except.error e => Except.error e
  | Except.ok _ =>
    match (retryCall (some isRetryableError) ((8 : ℚ)/10) 3 pre.goto).result with
    | Except.error e => Except.error e
    | Except.ok _ =>
      match pre.scroll with
      | some e => Except.error e
      | none =>
        match pre.waitSel with
        | some e => Except.error e
        | none => scrapeCardsFrom p env 0 cardCount []

/-- Whitespace characters stripped by Python `int()` around a numeral. -/
def isPySpace (c : Char) : Bool :=
  c = (' ') || c = ('\t') || c = ('\n') || c = ('\r')

/-- The value of a nonempty all-digit character sequence; `none` otherwise. -/
def digitsVal? (cs : List Char) : Option Nat :=
  if cs ≠ [] ∧ cs.all Char.isDigit then
    some (cs.foldl (fun a c => a * 10 + (c.toNat - 48)) 0)
  else
    none

/-- Python `int(s)` on a string: optional surrounding whitespace, optional
sign, decimal digits; anything else raises `ValueError`.  Returns `none` for
the raising case. -/
def pyInt? (s : String) : Option Int :=
  let cs := ((s.toList.dropWhile isPySpace).reverse.dropWhile isPySpace).reverse
  match cs with
  | [] => none
  | c :: rest =>
    if c = ('-') then (digitsVal? rest).map (fun n => -(Int.ofNat n))
    else if c = ('+') then (digitsVal? rest).map Int.ofNat
    else (digitsVal? cs).map Int.ofNat

/-- Python `list(range(a, b))` over integers. -/
def pyRange (a b : Int) : List Int :=
  (List.range (b - a).toNat).map (fun k => a + Int.ofNat k)

/-- Response of the page-check handler: status code, detected last page, and
the page-number array. -/
structure CheckResponse where
  statusCode : Nat
  lastPage : Int
  pageNumbers : List Int
deriving DecidableEq

/-- Last-page computation of `cultura_check_page/app.py` lines 136 to 140:
`attr` is the `jp-data` attribute of the paginator last-page control, `none`
when the control or the attribute is absent.  Python truthiness makes an empty
attribute default to 1 as well; a non-numeric attribute makes `int()` raise,
which propagates (modelled as `Except.error`). -/
def pageCheckLastPage (attr : Option String) : Except String Int :=
  match attr with
  | none => Except.ok 1
  | some s =>
    if s = "" then Except.ok 1
    else
      match pyInt? s with
      | none => Except.error ("ValueError: invalid literal for int")
      | some n => Except.ok n

/-- The page-check `handler` (lines 95 to 165), after the listing has loaded
and the paginator control has been queried: builds
`page_numbers = list(range(1, last_page + 1))` and returns status 200. -/
def pageCheckHandler (attr : Option String) : Except String CheckResponse :=
  match pageCheckLastPage attr with
  | Except.error e => Except.error e
  | Except.ok lastPage => Except.ok ⟨200, lastPage, pyRange 1 (lastPage + 1)⟩

/-- The `snapshot_date` entry of the merge invocation event
(`duckdb_handler/app.py` lines 70 to 72): absent, a string, or a nested dict
whose own `snapshot_date` entry is modelled by `inner`. -/
inductive SnapInput where
  | absent
  | strVal (s : String)
  | dictVal (inner : Option String)
deriving DecidableEq

/-- Resolution of `snapshot_date` including the nested-dict unwrap and the
falsiness test `if not snapshot_date` (an empty string is falsy). -/
def resolveSnapshotDate : SnapInput → Option String
  | SnapInput.absent => none
  | SnapInput.strVal s => if s = "" then none else some s
  | SnapInput.dictVal inner =>
    match inner with
    | none => none
    | some s => if s = "" then none else some s

/-- The JSON body returned by the merge handler. -/
inductive DuckBody where
  | errText (e : String)
  | msgText (m : String)
deriving DecidableEq

/-- HTTP-style response of the merge handler. -/
structure DuckResponse where
  statusCode : Nat
  body : DuckBody
deriving DecidableEq

/-- Observable outcome of one merge invocation: the response (`Except.error`
models an exception escaping the handler uncaught), whether the DuckDB COPY
statement was executed, and the bucket keys the handler wrote. -/
structure DuckOutcome where
  response : Except String DuckResponse
  copyExecuted : Bool
  s3Writes : List String
deriving DecidableEq

/-- `lambda_handler` of `duckdb_handler/app.py` (lines 68 to 149).  A missing
or falsy `snapshot_date` returns 400 before any DuckDB work.  Otherwise the
COPY from `snapshot_date/\x7bdate\x7d/*.json` to the parquet output key runs:
a raised exception is caught and returned as a 500 with the error text, and
nothing has been written; on success the parquet key has been written and the
download/publish tail runs (`tailOutcome` gives the published URL or the
exception it raises, which the handler does not catch). -/
def duckdbLambdaHandler (snap : SnapInput) (copyOutcome : Except String Unit)
    (tailOutcome : Except String String) : DuckOutcome :=
  match resolveSnapshotDate snap with
  | none =>
    ⟨Except.ok ⟨400, DuckBody.errText ("Missing \x27snapshot_date\x27 in event")⟩,
      false, []⟩
  | some d =>
    let outputKey := "database/scraped_data_" ++ d ++ ".parquet"
    match copyOutcome with
    | Except.error e => ⟨Except.ok ⟨500, DuckBody.errText e⟩, true, []⟩
    | Except.ok _ =>
      match tailOutcome with
      | Except.error e => ⟨Except.error e, true, [outputKey]⟩
      | Except.ok url =>
        ⟨Except.ok ⟨200, DuckBody.msgText ("Parquet uploaded to GitHub: " ++ url)⟩,
          true, [outputKey]⟩

/-- `k` starts with the marker string `m`. -/
def strStartsWith (k m : String) : Bool :=
  m.toList.isPrefixOf k.toList

/-- The crawl invocation event of `playwright_card_scrape/app.py` `handler`
(lines 339 to 350): a plain int, a string, a dict (its `page_number` entry is
modelled as an already-parsed integer and its `snapshot_date` entry as an
optional string), or anything else. -/
inductive CrawlEvent where
  | intEvent (n : Int)
  | strEvent (s : String)
  | dictEvent (pageNum : Option Int) (snapDate : Option String)
  | otherEvent
deriving DecidableEq

/-- `page_number` resolution (lines 343 to 350): ints pass through, digit
strings are parsed, dicts use `event.get("page_number", 1)`, anything else
defaults to 1. -/
def resolvePageNumber : CrawlEvent → Int
  | CrawlEvent.intEvent n => n
  | CrawlEvent.strEvent s =>
    match digitsVal? s.toList with
    | some n => Int.ofNat n
    | none => 1
  | CrawlEvent.dictEvent pn _ => pn.getD 1
  | CrawlEvent.otherEvent => 1

/-- `snapshot_date` resolution (line 358): for a dict event, the raw
`event.get("snapshot_date")` (possibly `None`); for every other event shape,
the current UTC date string. -/
def resolveCrawlSnapDate (e : CrawlEvent) (todayUtc : String) : Option String :=
  match e with
  | CrawlEvent.dictEvent _ sd => sd
  | _ => some todayUtc

/-- Python f-string rendering of a possibly-None string: `None` renders as
the four characters `None`. -/
def pyRenderOptStr : Option String → String
  | none => "None"
  | some s => s

/-- The shard key f-string of line 359. -/
def crawlS3Key (e : CrawlEvent) (todayUtc : String) : String :=
  "snapshot_date/" ++ pyRenderOptStr (resolveCrawlSnapDate e todayUtc) ++
    "/events_page_" ++ toString (resolvePageNumber e) ++ ".json"

/-- Observable outcome of the crawl handler: status code and the shard key
written (none when the handler failed fast on configuration). -/
structure CrawlHandlerResult where
  statusCode : Nat
  s3Key : Option String
deriving DecidableEq

/-- The crawl `handler` (lines 339 to 386) up to the shard write: a missing
or empty `BUCKET_NAME` returns 500 and writes nothing; otherwise the shard is
written under the key of line 359 and the handler returns 200. -/
def crawlHandler (bucketName : Option String) (e : CrawlEvent)
    (todayUtc : String) : CrawlHandlerResult :=
  match bucketName with
  | none => ⟨500, none⟩
  | some b => if b = "" then ⟨500, none⟩ else ⟨200, some (crawlS3Key e todayUtc)⟩

/-! ## Lemmas about the retry helper -/

lemma retryLoop_calls_le {α : Type} (p? : Option (String → Bool)) (b : ℚ) (r : Nat)
    (env : Nat → Attempt α) :
    ∀ f a, (retryLoop p? b r env a f).calls ≤ f := by
  intro f
  induction f with
  | zero => intro a; simp [retryLoop]
  | succ f ih =>
    intro a
    unfold retryLoop
    cases henv : env a with
    | ok v => simp
    | err e =>
      by_cases h1 : nonRetryable p? e
      · simp [h1]
      · by_cases h2 : a = r
        · simp [h1, h2]
        · simp only [h1, h2, Bool.false_eq_true, if_false, ite_false]
          exact Nat.succ_le_succ (ih (a + 1))

lemma retryLoop_calls_pos {α : Type} (p? : Option (String → Bool)) (b : ℚ) (r : Nat)
    (env : Nat → Attempt α) :
    ∀ f a, 1 ≤ f → 1 ≤ (retryLoop p? b r env a f).calls := by
  intro f a hf
  match f, hf with
  | f + 1, _ =>
    unfold retryLoop
    cases henv : env a with
    | ok v => simp
    | err e =>
      by_cases h1 : nonRetryable p? e
      · simp [h1]
      · by_cases h2 : a = r
        · simp [h1, h2]
        · simp only [h1, h2, Bool.false_eq_true, if_false, ite_false]
          exact Nat.succ_le_succ (Nat.zero_le _)

lemma retryLoop_logs {α : Type} (p? : Option (String → Bool)) (b : ℚ) (r : Nat)
    (env : Nat → Attempt α) :
    ∀ f a, a + f = r + 1 →
      (retryLoop p? b r env a f).logs =
        List.range' a ((retryLoop p? b r env a f).calls - 1) := by
  intro f
  induction f with
  | zero => intro a h; simp [retryLoop]
  | succ f ih =>
    intro a h
    unfold retryLoop
    cases henv : env a with
    | ok v => simp
    | err e =>
      by_cases h1 : nonRetryable p? e
      · simp [h1]
      · by_cases h2 : a = r
        · simp [h1, h2]
        · have hf : 1 ≤ f := by omega
          have hcalls := retryLoop_calls_pos p? b r env f (a + 1) hf
          have ihh := ih (a + 1) (by omega)
          simp only [h1, h2, Bool.false_eq_true, if_false, ite_false]
          rw [ihh]
          obtain ⟨c, hc⟩ : ∃ c, (retryLoop p? b r env (a + 1) f).calls = c + 1 :=
            ⟨(retryLoop p? b r env (a + 1) f).calls - 1, by omega⟩
          rw [hc]
          simp [List.range'_succ]

lemma retryLoop_sleeps {α : Type} (p? : Option (String → Bool)) (b : ℚ) (r : Nat)
    (env : Nat → Attempt α) :
    ∀ f a, (retryLoop p? b r env a f).sleeps =
      (retryLoop p? b r env a f).logs.map (fun k => b * 2 ^ (k - 1)) := by
  intro f
  induction f with
  | zero => intro a; simp [retryLoop]
  | succ f ih =>
    intro a
    unfold retryLoop
    cases henv : env a with
    | ok v => simp
    | err e =>
      by_cases h1 : nonRetryable p? e
      · simp [h1]
      · by_cases h2 : a = r
        · simp [h1, h2]
        · simp only [h1, h2, Bool.false_eq_true, if_false, ite_false, List.map_cons]
          rw [ih (a + 1)]

lemma retryLoop_allfail {α : Type} (p : String → Bool) (b : ℚ) (r : Nat)
    (env : Nat → Attempt α) (es : Nat → String) :
    ∀ f a, a + f = r + 1 → 1 ≤ f →
      (∀ k, a ≤ k → k ≤ r → env k = Attempt.err (es k) ∧ p (es k) = true) →
      (retryLoop (some p) b r env a f).result = Except.error (es r) := by
  intro f
  induction f with
  | zero => intro a _ hf _; omega
  | succ f ih =>
    intro a h _ hall
    have ha : a ≤ r := by omega
    obtain ⟨henv, hp⟩ := hall a le_rfl ha
    unfold retryLoop
    simp only [henv]
    have h1 : nonRetryable (some p) (es a) = false := by simp [nonRetryable, hp]
    by_cases h2 : a = r
    · subst h2; simp [h1]
    · have hf : 1 ≤ f := by omega
      simp only [h1, h2, Bool.false_eq_true, if_false, ite_false]
      exact ih (a + 1) (by omega) hf (fun k hk1 hk2 => hall k (by omega) hk2)

/-- C4: for every operation run through the retry helper with limit
`max_attempts` (`retries`), the underlying operation is invoked at most
`retries` times; the `retry_scheduled` log events are exactly one per
scheduled retry (the attempt numbers `1 .. calls - 1`, each once); and an
error not matching the transient-fault classification predicate propagates to
the caller immediately with exactly one invocation, no further attempt and no
retry log. -/
theorem retry_helper_attempt_bound {α : Type} (p : String → Bool) (baseDelay : ℚ)
    (retries : Nat) (env : Nat → Attempt α) (hr : 1 ≤ retries) :
    (retryCall (some p) baseDelay retries env).calls ≤ retries ∧
    (retryCall (some p) baseDelay retries env).logs =
      List.range' 1 ((retryCall (some p) baseDelay retries env).calls - 1) ∧
    (∀ e, env 1 = Attempt.err e → p e = false →
      retryCall (some p) baseDelay retries env = ⟨Except.error e, 1, [], []⟩) := by
  refine ⟨retryLoop_calls_le (some p) baseDelay retries env retries 1,
    retryLoop_logs (some p) baseDelay retries env retries 1 (by omega), ?_⟩
  intro e henv hpe
  obtain ⟨rr, hrr⟩ : ∃ rr, retries = rr + 1 := ⟨retries - 1, by omega⟩
  unfold retryCall
  rw [hrr]
  unfold retryLoop
  simp [henv, nonRetryable, hpe]

/-- C4 witness: a non-matching error at the first attempt, with
`max_attempts = 3`. -/
theorem retry_helper_attempt_bound_witness :
    (retryCall (some (fun _ => false)) ((6 : ℚ)/10) 3
        (fun _ => (Attempt.err ("boom") : Attempt Unit))).calls ≤ 3 ∧
    (retryCall (some (fun _ => false)) ((6 : ℚ)/10) 3
        (fun _ => (Attempt.err ("boom") : Attempt Unit))).logs =
      List.range' 1 ((retryCall (some (fun _ => false)) ((6 : ℚ)/10) 3
        (fun _ => (Attempt.err ("boom") : Attempt Unit))).calls - 1) ∧
    retryCall (some (fun _ => false)) ((6 : ℚ)/10) 3
        (fun _ => (Attempt.err ("boom") : Attempt Unit)) =
      ⟨Except.error ("boom"), 1, [], []⟩ :=
  ⟨(retry_helper_attempt_bound (fun _ => false) ((6 : ℚ)/10) 3
      (fun _ => (Attempt.err ("boom") : Attempt Unit)) (by decide)).1,
    (retry_helper_attempt_bound (fun _ => false) ((6 : ℚ)/10) 3
      (fun _ => (Attempt.err ("boom") : Attempt Unit)) (by decide)).2.1,
    (retry_helper_attempt_bound (fun _ => false) ((6 : ℚ)/10) 3
      (fun _ => (Attempt.err ("boom") : Attempt Unit)) (by decide)).2.2
      ("boom") rfl rfl⟩

/-- C5: whenever attempt `k` of the retry helper fails with a matching error
and `k < max_attempts`, the helper sleeps exactly
`base_delay * 2 ^ (k - 1)` before attempt `k + 1` (the sleeps list pairs the
logged attempt numbers with exactly those durations); and when every attempt
up to `max_attempts` fails with a matching error, the final error propagates
to the caller. -/
theorem retry_backoff_and_final_raise {α : Type} (p : String → Bool) (baseDelay : ℚ)
    (retries : Nat) (env : Nat → Attempt α) (es : Nat → String) (hr : 1 ≤ retries)
    (hall : ∀ k, 1 ≤ k → k ≤ retries → env k = Attempt.err (es k) ∧ p (es k) = true) :
    (retryCall (some p) baseDelay retries env).sleeps =
      (retryCall (some p) baseDelay retries env).logs.map
        (fun k => baseDelay * 2 ^ (k - 1)) ∧
    (retryCall (some p) baseDelay retries env).result = Except.error (es retries) := by
  exact ⟨retryLoop_sleeps (some p) baseDelay retries env retries 1,
    retryLoop_allfail p baseDelay retries env es retries 1 (by omega) hr hall⟩

/-- C5 witness: all three attempts fail with a matching timeout error. -/
theorem retry_backoff_and_final_raise_witness :
    (retryCall (some (fun _ => true)) ((6 : ℚ)/10) 3
        (fun _ => (Attempt.err ("Timeout") : Attempt Unit))).sleeps =
      (retryCall (some (fun _ => true)) ((6 : ℚ)/10) 3
        (fun _ => (Attempt.err ("Timeout") : Attempt Unit))).logs.map
          (fun k => ((6 : ℚ)/10) * 2 ^ (k - 1)) ∧
    (retryCall (some (fun _ => true)) ((6 : ℚ)/10) 3
        (fun _ => (Attempt.err ("Timeout") : Attempt Unit))).result =
      Except.error ("Timeout") :=
  retry_backoff_and_final_raise (fun _ => true) ((6 : ℚ)/10) 3
    (fun _ => (Attempt.err ("Timeout") : Attempt Unit)) (fun _ => ("Timeout"))
    (by decide) (fun k h1 h2 => ⟨rfl, rfl⟩)

/-! ## Lemmas about the serialized records -/

/-- Dict lookup on a serialized record (first matching key wins; our records
never hold duplicate keys). -/
def recField (k : String) : Record → Option JVal
  | [] => none
  | q :: rest => if q.1 = k then some q.2 else recField k rest

/-- The key set of the EventRecord schema, in serialization order.  The
source keys `evento` and `recinto` carry the fields the specification calls
`event_title` and `venue`. -/
def eventRecordKeys : List String :=
  [("page_number"), ("card_index"), ("detail_url"), ("description"), ("info"),
   ("schedule"), ("location"), ("banner_url"), ("evento"), ("recinto")]

/-- The extraction-field keys of the EventRecord schema. -/
def extractionKeys : List String :=
  [("description"), ("info"), ("schedule"), ("location"), ("banner_url"),
   ("evento"), ("recinto")]

lemma failedRecord_eq (p : Int) (i : Nat) :
    failedRecord p i =
      [("page_number", JVal.num p), ("card_index", JVal.num (Int.ofNat i)),
       ("detail_url", JVal.null), ("description", JVal.null), ("info", JVal.null),
       ("schedule", JVal.null), ("location", JVal.null), ("banner_url", JVal.null),
       ("evento", JVal.null), ("recinto", JVal.null)] := by
  simp [failedRecord, dictMerge, dictInsert, emptyEventPayload]

lemma successRecord_innerToDict_eq (p : Int) (i : Nat) (url : String) (d : InnerData) :
    successRecord p i url (innerToDict d) =
      [("page_number", JVal.num p), ("card_index", JVal.num (Int.ofNat i)),
       ("detail_url", JVal.str url),
       ("description", jstrList d.description), ("info", jstrList d.info),
       ("schedule", jsched d.schedule), ("location", jstr d.location),
       ("banner_url", jstr d.banner_url), ("evento", jstr d.evento),
       ("recinto", jstr d.recinto)] := by
  simp [successRecord, dictMerge, dictInsert, emptyEventPayload, innerToDict]

/-- When the extraction degraded to the empty payload, the success-path merge
also nulls out `detail_url` (the empty payload carries a `detail_url` key and
is unpacked last), so the record coincides with the failure record. -/
lemma successRecord_empty_eq (p : Int) (i : Nat) (url : String) :
    successRecord p i url (emptyEventPayload JVal.null) = failedRecord p i := by
  simp [successRecord, failedRecord, dictMerge, dictInsert, emptyEventPayload]

lemma failedRecord_keys (p : Int) (i : Nat) :
    (failedRecord p i).map Prod.fst = eventRecordKeys := by
  rw [failedRecord_eq]; rfl

lemma successRecord_innerToDict_keys (p : Int) (i : Nat) (url : String) (d : InnerData) :
    (successRecord p i url (innerToDict d)).map Prod.fst = eventRecordKeys := by
  rw [successRecord_innerToDict_eq]; rfl

lemma failedRecord_pageNumber (p : Int) (i : Nat) :
    recField ("page_number") (failedRecord p i) = some (JVal.num p) := by
  rw [failedRecord_eq]; simp [recField]

lemma failedRecord_cardIndex (p : Int) (i : Nat) :
    recField ("card_index") (failedRecord p i) = some (JVal.num (Int.ofNat i)) := by
  rw [failedRecord_eq]; simp [recField]

lemma failedRecord_detailUrl (p : Int) (i : Nat) :
    recField ("detail_url") (failedRecord p i) = some JVal.null := by
  rw [failedRecord_eq]; simp [recField]

lemma failedRecord_extraction_null (p : Int) (i : Nat) :
    ∀ k, k ∈ extractionKeys → recField k (failedRecord p i) = some JVal.null := by
  intro k hk
  rw [failedRecord_eq]
  fin_cases hk <;> simp [recField]

lemma successRecord_innerToDict_pageNumber (p : Int) (i : Nat) (url : String)
    (d : InnerData) :
    recField ("page_number") (successRecord p i url (innerToDict d)) =
      some (JVal.num p) := by
  rw [successRecord_innerToDict_eq]; simp [recField]

lemma successRecord_innerToDict_cardIndex (p : Int) (i : Nat) (url : String)
    (d : InnerData) :
    recField ("card_index") (successRecord p i url (innerToDict d)) =
      some (JVal.num (Int.ofNat i)) := by
  rw [successRecord_innerToDict_eq]; simp [recField]

/-! ## Lemmas about the inner-page extractor -/

lemma scrapeInnerPageLoop_shape (env : Nat → Attempt (Option InnerData)) (retries : Nat) :
    ∀ fuel attempt,
      scrapeInnerPageLoop env retries attempt fuel = emptyEventPayload JVal.null ∨
      ∃ d, scrapeInnerPageLoop env retries attempt fuel = innerToDict d := by
  intro fuel
  induction fuel with
  | zero => intro attempt; left; simp [scrapeInnerPageLoop]
  | succ fuel ih =>
    intro attempt
    unfold scrapeInnerPageLoop
    cases henv : env attempt with
    | ok data =>
      cases data with
      | none => left; simp
      | some d => right; exact ⟨d, rfl⟩
    | err e =>
      by_cases hc : (isRetryableError e && decide (attempt < retries)) = true
      · simp only [hc, if_true]
        exact ih (attempt + 1)
      · simp only [hc, Bool.false_eq_true, if_false, ite_false]
        left; trivial

/-- The data merged into a success record is always one of the two shapes. -/
lemma scrapeInnerPage_shape (env : Nat → Attempt (Option InnerData)) (retries : Nat) :
    scrapeInnerPage env retries = emptyEventPayload JVal.null ∨
    ∃ d, scrapeInnerPage env retries = innerToDict d :=
  scrapeInnerPageLoop_shape env retries retries 1

/-- C6: `scrape_inner_page` never propagates an exception to its caller: it
is a total function into records (every branch of the source returns), and it
returns the canonical all-null payload when the detail container is missing
(the script returns null), when the first error is non-retryable, and when
the bounded retry loop of 2 attempts is exhausted by errors. -/
theorem scrape_inner_page_degrades (env : Nat → Attempt (Option InnerData)) :
    (env 1 = Attempt.ok none → scrapeInnerPage env 2 = emptyEventPayload JVal.null) ∧
    (∀ e, env 1 = Attempt.err e → isRetryableError e = false →
      scrapeInnerPage env 2 = emptyEventPayload JVal.null) ∧
    (∀ e1 e2, env 1 = Attempt.err e1 → env 2 = Attempt.err e2 →
      scrapeInnerPage env 2 = emptyEventPayload JVal.null) := by
  refine ⟨?_, ?_, ?_⟩
  · intro h
    simp [scrapeInnerPage, scrapeInnerPageLoop, h]
  · intro e h hre
    simp [scrapeInnerPage, scrapeInnerPageLoop, h, hre]
  · intro e1 e2 h1 h2
    by_cases hre : isRetryableError e1
    · simp [scrapeInnerPage, scrapeInnerPageLoop, h1, h2, hre]
    · simp [scrapeInnerPage, scrapeInnerPageLoop, h1, hre]

/-- C6 witness: the detail wrapper is missing on the first attempt. -/
theorem scrape_inner_page_degrades_witness :
    scrapeInnerPage (fun _ => Attempt.ok none) 2 = emptyEventPayload JVal.null :=
  (scrape_inner_page_degrades (fun _ => Attempt.ok none)).1 rfl

/-! ## Lemmas about one card of the sequential page crawl -/

/-- Whether an `Except` value is a success. -/
def exceptIsOk : Except String α → Bool
  | Except.ok _ => true
  | Except.error _ => false

/-- The records appended for one card are a lone failure record, a lone
success record, or a success record followed by a failure record (the latter
when the return navigation or the following settle-scroll raised after the
success record was already appended). -/
lemma processCard_records (p : Int) (i : Nat) (c : CardEnv) :
    (processCard p i c).1 = [failedRecord p i] ∨
    (processCard p i c).1 =
      [successRecord p i c.detailUrl (scrapeInnerPage c.inner 2)] ∨
    (processCard p i c).1 =
      [successRecord p i c.detailUrl (scrapeInnerPage c.inner 2), failedRecord p i] := by
  unfold processCard
  cases hpre : c.pre with
  | some e => left; rfl
  | none =>
    cases hgb : (retryCall (some isRetryableError) ((7 : ℚ)/10) 3 c.goBack).result with
    | error e => right; right; rfl
    | ok u =>
      cases hps : c.postScroll with
      | some e => right; right; rfl
      | none => right; left; rfl

/-- C2: whenever the processing of a card takes a failure path at any stage
(an exception before extraction, a return-navigation failure after its
retries, or a failing settle-scroll after the return), the record appended
for that failure is the all-null record: every extraction field null,
`detail_url` null, and `page_number` and `card_index` equal to the page and
index being processed.  It is the last record appended for that card, so it
reconciles positionally with the slot in the page snapshot. -/
theorem failed_card_record (p : Int) (i : Nat) (c : CardEnv)
    (h : c.pre.isSome = true ∨
      exceptIsOk (retryCall (some isRetryableError) ((7 : ℚ)/10) 3 c.goBack).result
        = false ∨
      c.postScroll.isSome = true) :
    (processCard p i c).1.getLast? = some (failedRecord p i) ∧
    recField ("page_number") (failedRecord p i) = some (JVal.num p) ∧
    recField ("card_index") (failedRecord p i) = some (JVal.num (Int.ofNat i)) ∧
    recField ("detail_url") (failedRecord p i) = some JVal.null ∧
    (∀ k, k ∈ extractionKeys → recField k (failedRecord p i) = some JVal.null) := by
  refine ⟨?_, failedRecord_pageNumber p i, failedRecord_cardIndex p i,
    failedRecord_detailUrl p i, failedRecord_extraction_null p i⟩
  unfold processCard
  cases hpre : c.pre with
  | some e => rfl
  | none =>
    cases hgb : (retryCall (some isRetryableError) ((7 : ℚ)/10) 3 c.goBack).result with
    | error e => rfl
    | ok u =>
      cases hps : c.postScroll with
      | some e => rfl
      | none =>
        exfalso
        rcases h with h | h | h
        · rw [hpre] at h; exact absurd h (by simp)
        · rw [hgb] at h; exact absurd h (by simp [exceptIsOk])
        · rw [hps] at h; exact absurd h (by simp)

/-- C2 witness: a card whose activation raises before extraction. -/
theorem failed_card_record_witness :
    (processCard 2 3 ⟨some ("click failed"), "u", fun _ => Attempt.ok none,
        fun _ => Attempt.ok (), none, fun _ => Attempt.ok (), none⟩).1.getLast? =
      some (failedRecord 2 3) ∧
    recField ("page_number") (failedRecord 2 3) = some (JVal.num 2) ∧
    recField ("card_index") (failedRecord 2 3) = some (JVal.num (Int.ofNat 3)) ∧
    recField ("detail_url") (failedRecord 2 3) = some JVal.null :=
  ⟨(failed_card_record 2 3 ⟨some ("click failed"), "u", fun _ => Attempt.ok none,
      fun _ => Attempt.ok (), none, fun _ => Attempt.ok (), none⟩ (Or.inl rfl)).1,
    (failed_card_record 2 3 ⟨some ("click failed"), "u", fun _ => Attempt.ok none,
      fun _ => Attempt.ok (), none, fun _ => Attempt.ok (), none⟩ (Or.inl rfl)).2.1,
    (failed_card_record 2 3 ⟨some ("click failed"), "u", fun _ => Attempt.ok none,
      fun _ => Attempt.ok (), none, fun _ => Attempt.ok (), none⟩ (Or.inl rfl)).2.2.1,
    (failed_card_record 2 3 ⟨some ("click failed"), "u", fun _ => Attempt.ok none,
      fun _ => Attempt.ok (), none, fun _ => Attempt.ok (), none⟩ (Or.inl rfl)).2.2.2.1⟩

/-! ## Field completeness of every emitted record -/

lemma successRecord_scrape_keys (p : Int) (i : Nat) (url : String)
    (env : Nat → Attempt (Option InnerData)) :
    (successRecord p i url (scrapeInnerPage env 2)).map Prod.fst = eventRecordKeys := by
  rcases scrapeInnerPage_shape env 2 with h | ⟨d, h⟩
  · rw [h, successRecord_empty_eq]; exact failedRecord_keys p i
  · rw [h]; exact successRecord_innerToDict_keys p i url d

lemma processCard_keys (p : Int) (i : Nat) (c : CardEnv) :
    ∀ r ∈ (processCard p i c).1, r.map Prod.fst = eventRecordKeys := by
  intro r hr
  rcases processCard_records p i c with h | h | h <;> rw [h] at hr <;> simp at hr
  · rw [hr]; exact failedRecord_keys p i
  · rw [hr]; exact successRecord_scrape_keys p i c.detailUrl c.inner
  · rcases hr with hr | hr
    · rw [hr]; exact successRecord_scrape_keys p i c.detailUrl c.inner
    · rw [hr]; exact failedRecord_keys p i

lemma scrapeCardsFrom_keys (p : Int) (env : Nat → CardEnv) :
    ∀ n i acc results,
      (∀ r ∈ acc, r.map Prod.fst = eventRecordKeys) →
      scrapeCardsFrom p env i n acc = Except.ok results →
      ∀ r ∈ results, r.map Prod.fst = eventRecordKeys := by
  intro n
  induction n with
  | zero =>
    intro i acc results hacc h
    unfold scrapeCardsFrom at h
    cases h
    exact hacc
  | succ n ih =>
    intro i acc results hacc h
    unfold scrapeCardsFrom at h
    cases hpc : processCard p i (env i) with
    | mk recs abortE =>
      rw [hpc] at h
      cases abortE with
      | some e => exact absurd h (by simp)
      | none =>
        refine ih (i + 1) (acc ++ recs) results ?_ h
        intro r hr
        rcases List.mem_append.mp hr with h1 | h2
        · exact hacc r h1
        · refine processCard_keys p i (env i) r ?_
          rw [hpc]
          exact h2

/-- C3: every record emitted by the crawl, on the success path or on any
failure path, explicitly contains every field of the EventRecord schema, in
order: `page_number`, `card_index`, `detail_url`, `description`, `info`,
`schedule`, `location`, `banner_url` and the title and venue fields
(serialized as `evento` and `recinto`); a failed extraction contributes a
null sentinel, never an omitted key. -/
theorem crawl_records_all_fields (p : Int) (pre : PreEnv) (cardCount : Nat)
    (env : Nat → CardEnv) (results : List Record)
    (h : scrapePageSequential p pre cardCount env = Except.ok results) :
    ∀ r ∈ results, r.map Prod.fst = eventRecordKeys := by
  unfold scrapePageSequential at h
  cases h1 : (retryCall (some isRetryableError) ((7 : ℚ)/10) 3 pre.newPage).result with
  | error e => rw [h1] at h; exact absurd h (by simp)
  | ok u1 =>
    rw [h1] at h
    cases h2 : (retryCall (some isRetryableError) ((8 : ℚ)/10) 3 pre.goto).result with
    | error e => rw [h2] at h; exact absurd h (by simp)
    | ok u2 =>
      rw [h2] at h
      cases h3 : pre.scroll with
      | some e => rw [h3] at h; exact absurd h (by simp)
      | none =>
        rw [h3] at h
        cases h4 : pre.waitSel with
        | some e => rw [h4] at h; exact absurd h (by simp)
        | none =>
          rw [h4] at h
          exact scrapeCardsFrom_keys p env cardCount 0 [] results (by simp) h

/-- Environment of a card whose whole cycle succeeds (extraction script
returns null, so the payload degrades to all-null values). -/
def okCard : CardEnv :=
  ⟨none, "u", fun _ => Attempt.ok none, fun _ => Attempt.ok (), none,
    fun _ => Attempt.ok (), none⟩

/-- Preamble environment in which every preparatory operation succeeds. -/
def okPre : PreEnv :=
  ⟨fun _ => Attempt.ok (), fun _ => Attempt.ok (), none, none⟩

/-- C3 witness: one card, full cycle, extraction degraded to the all-null
payload. -/
theorem crawl_records_all_fields_witness :
    (failedRecord 1 0).map Prod.fst = eventRecordKeys :=
  crawl_records_all_fields 1 okPre 1 (fun _ => okCard) [failedRecord 1 0] (by decide)
    (failedRecord 1 0) (List.mem_singleton.mpr rfl)

/-! ## Page snapshot length -/

/-- A card whose whole cycle succeeds: no pre-extraction exception, the
return navigation succeeds within its retries, and the settle-scroll after it
does not raise.  Exactly one record is appended. -/
def cardFullSuccess (c : CardEnv) : Prop :=
  c.pre = none ∧
  (retryCall (some isRetryableError) ((7 : ℚ)/10) 3 c.goBack).result = Except.ok () ∧
  c.postScroll = none

/-- A card that fails before its success record is appended, and whose
recovery reload succeeds: exactly one (all-null) record is appended and the
loop continues. -/
def cardFailsEarlyClean (c : CardEnv) : Prop :=
  c.pre ≠ none ∧ recoverAfterFailure c = none

instance (c : CardEnv) : Decidable (cardFullSuccess c) := by
  unfold cardFullSuccess; infer_instance

instance (c : CardEnv) : Decidable (cardFailsEarlyClean c) := by
  unfold cardFailsEarlyClean; infer_instance

lemma processCard_clean (p : Int) (i : Nat) (c : CardEnv)
    (h : cardFullSuccess c ∨ cardFailsEarlyClean c) :
    ∃ r, processCard p i c = ([r], none) ∧
      recField ("card_index") r = some (JVal.num (Int.ofNat i)) ∧
      recField ("page_number") r = some (JVal.num p) := by
  rcases h with ⟨hpre, hgb, hps⟩ | ⟨hpre, hrec⟩
  · refine ⟨successRecord p i c.detailUrl (scrapeInnerPage c.inner 2), ?_, ?_, ?_⟩
    · unfold processCard
      rw [hpre, hgb, hps]
    · rcases scrapeInnerPage_shape c.inner 2 with hs | ⟨d, hs⟩
      · rw [hs, successRecord_empty_eq]; exact failedRecord_cardIndex p i
      · rw [hs]; exact successRecord_innerToDict_cardIndex p i c.detailUrl d
    · rcases scrapeInnerPage_shape c.inner 2 with hs | ⟨d, hs⟩
      · rw [hs, successRecord_empty_eq]; exact failedRecord_pageNumber p i
      · rw [hs]; exact successRecord_innerToDict_pageNumber p i c.detailUrl d
  · obtain ⟨e, he⟩ := Option.ne_none_iff_exists.mp hpre
    refine ⟨failedRecord p i, ?_, failedRecord_cardIndex p i, failedRecord_pageNumber p i⟩
    unfold processCard
    rw [← he, hrec]

lemma scrapeCardsFrom_clean (p : Int) (env : Nat → CardEnv) :
    ∀ n i acc,
      (∀ j, j < n → cardFullSuccess (env (i + j)) ∨ cardFailsEarlyClean (env (i + j))) →
      ∃ L, scrapeCardsFrom p env i n acc = Except.ok (acc ++ L) ∧ L.length = n ∧
        ∀ j, j < n → ∃ r, L.get? j = some r ∧
          recField ("card_index") r = some (JVal.num (Int.ofNat (i + j))) ∧
          recField ("page_number") r = some (JVal.num p) := by
  intro n
  induction n with
  | zero =>
    intro i acc h
    exact ⟨[], by simp [scrapeCardsFrom], rfl, fun j hj => absurd hj (by omega)⟩
  | succ n ih =>
    intro i acc h
    obtain ⟨r, hpc, hci, hpn⟩ :=
      processCard_clean p i (env i) (by simpa using h 0 (Nat.succ_pos n))
    obtain ⟨L, hL, hlen, hidx⟩ := ih (i + 1) (acc ++ [r]) (fun j hj => by
      have h2 := h (j + 1) (Nat.succ_lt_succ hj)
      rw [show i + (j + 1) = i + 1 + j by omega] at h2
      exact h2)
    refine ⟨r :: L, ?_, by simp [hlen], ?_⟩
    · unfold scrapeCardsFrom
      rw [hpc]
      show scrapeCardsFrom p env (i + 1) n (acc ++ [r]) = Except.ok (acc ++ r :: L)
      rw [hL]
      simp
    · intro j hj
      cases j with
      | zero => exact ⟨r, rfl, by simpa using hci, hpn⟩
      | succ j =>
        obtain ⟨rj, hrj, hrci, hrpn⟩ := hidx j (by omega)
        refine ⟨rj, by simpa using hrj, ?_, hrpn⟩
        rw [show i + (j + 1) = i + 1 + j by omega]
        exact hrci

/-- C1 counterexample: one card (card count 1) whose activation, wait and
extraction all succeed but whose return navigation fails with a retryable
timeout on all three attempts.  The success record is appended, the
exhausted retry helper re-raises inside the loop body, and the except
handler appends a second, all-null record for the same card: the page crawl
returns 2 records for 1 card, so the returned length differs from the card
count even though the recovery succeeded and the crawl was not aborted. -/
def returnNavFailCard : CardEnv :=
  ⟨none, "u", fun _ => Attempt.ok none, fun _ => Attempt.err ("Timeout"), none,
    fun _ => Attempt.ok (), none⟩

/-- C1 is false as stated: a per-card failure after the success record was
appended does not drop a slot, it duplicates one. -/
theorem scrape_page_length_counterexample :
    (scrapePageSequential 1 okPre 1 (fun _ => returnNavFailCard)).map List.length =
      Except.ok 2 ∧ (2 : Nat) ≠ 1 := by
  constructor
  · decide
  · decide

/-- C1 amended: for every valid page number, if every card either completes
its full cycle (return navigation and following settle-scroll included) or
fails before its success record is appended with a succeeding recovery
reload, then the returned snapshot has exactly one record per card index
`0 .. card_count - 1`, in order.  (The counterexample forces the amendment:
a return-navigation failure after a successful extraction appends a second
record for the same card index, and an exhausted recovery reload aborts the
page crawl.) -/
theorem scrape_page_length_amended (p : Int) (pre : PreEnv) (cardCount : Nat)
    (env : Nat → CardEnv)
    (hpre : (retryCall (some isRetryableError) ((7 : ℚ)/10) 3 pre.newPage).result
        = Except.ok () ∧
      (retryCall (some isRetryableError) ((8 : ℚ)/10) 3 pre.goto).result
        = Except.ok () ∧
      pre.scroll = none ∧ pre.waitSel = none)
    (hclean : ∀ j, j < cardCount → cardFullSuccess (env j) ∨ cardFailsEarlyClean (env j)) :
    ∃ results, scrapePageSequential p pre cardCount env = Except.ok results ∧
      results.length = cardCount ∧
      ∀ j, j < cardCount → ∃ r, results.get? j = some r ∧
        recField ("card_index") r = some (JVal.num (Int.ofNat j)) ∧
        recField ("page_number") r = some (JVal.num p) := by
  obtain ⟨h1, h2, h3, h4⟩ := hpre
  obtain ⟨L, hL, hlen, hidx⟩ := scrapeCardsFrom_clean p env cardCount 0 []
    (fun j hj => by simpa using hclean j hj)
  refine ⟨L, ?_, hlen, fun j hj => by simpa using hidx j hj⟩
  unfold scrapePageSequential
  rw [h1, h2, h3, h4]
  simpa using hL

/-- C1 witness: one card, full cycle — the snapshot length equals the card
count. -/
theorem scrape_page_length_amended_witness :
    (scrapePageSequential 1 okPre 1 (fun _ => okCard)).map List.length = Except.ok 1 := by
  obtain ⟨results, hres, hlen, _⟩ :=
    scrape_page_length_amended 1 okPre 1 (fun _ => okCard) (by decide) (by decide)
  rw [hres]
  show Except.ok results.length = Except.ok 1
  rw [hlen]

/-! ## Page discovery -/

lemma pyRange_mem (a b m : Int) : m ∈ pyRange a b ↔ a ≤ m ∧ m < b := by
  simp only [pyRange, List.mem_map, List.mem_range, Int.ofNat_eq_coe]
  constructor
  · rintro ⟨k, hk, rfl⟩
    omega
  · rintro ⟨h1, h2⟩
    exact ⟨(m - a).toNat, by omega, by omega⟩

/-- C7 counterexample: the paginator control present with `jp-data="0"` makes
the handler return `last_page = 0` with an empty page array, so the returned
last page is not an integer greater than or equal to 1. -/
theorem page_discovery_counterexample :
    pageCheckHandler (some ("0")) = Except.ok ⟨200, 0, []⟩ ∧ ¬ (1 ≤ (0 : Int)) := by
  exact ⟨by decide, by decide⟩

/-- C7 amended: when the paginator last-page control or its `jp-data`
attribute is absent (and likewise when the attribute is empty), page
discovery returns `last_page = 1` with `page_numbers = [1]`, not an error;
and for every discovery run whose attribute parses as an integer `n ≥ 1`,
the returned `last_page = n` is at least 1 and `page_numbers` is exactly
`[1 .. n]`.  (The counterexample forces the proviso: an attribute denoting an
integer below 1 is returned as-is, and a non-numeric attribute raises.) -/
theorem page_discovery_amended (attr : Option String) :
    (attr = none → pageCheckHandler attr = Except.ok ⟨200, 1, pyRange 1 2⟩) ∧
    (attr = some ("") → pageCheckHandler attr = Except.ok ⟨200, 1, pyRange 1 2⟩) ∧
    (∀ s n, attr = some s → pyInt? s = some n → 1 ≤ n →
      pageCheckHandler attr = Except.ok ⟨200, n, pyRange 1 (n + 1)⟩ ∧ 1 ≤ n ∧
      (∀ m, m ∈ pyRange 1 (n + 1) ↔ 1 ≤ m ∧ m ≤ n)) := by
  refine ⟨?_, ?_, ?_⟩
  · intro h; rw [h]; decide
  · intro h; rw [h]; decide
  · intro s n hs hn h1
    subst hs
    by_cases hse : s = ("")
    · rw [hse] at hn
      rw [show pyInt? ("") = none from rfl] at hn
      cases hn
    · refine ⟨?_, h1, fun m => by rw [pyRange_mem]; omega⟩
      unfold pageCheckHandler pageCheckLastPage
      simp [hse, hn]

/-- C7 witness: the attribute parses as 4. -/
theorem page_discovery_amended_witness :
    pageCheckHandler (some ("4")) = Except.ok ⟨200, 4, pyRange 1 (4 + 1)⟩ ∧
      1 ≤ (4 : Int) :=
  ⟨((page_discovery_amended (some ("4"))).2.2 ("4") 4 rfl (by decide) (by decide)).1,
    ((page_discovery_amended (some ("4"))).2.2 ("4") 4 rfl (by decide) (by decide)).2.1⟩

/-! ## Merge handler -/

/-- C8: every merge invocation whose event lacks a usable `snapshot_date`
value (absent, empty, or nested without one) returns a client-error response
with status 400 and an explanatory error body, executes no DuckDB COPY, and
writes no object at all, so no columnar output file is produced. -/
theorem merge_missing_snapshot_date (snap : SnapInput) (copyOutcome : Except String Unit)
    (tailOutcome : Except String String) (h : resolveSnapshotDate snap = none) :
    duckdbLambdaHandler snap copyOutcome tailOutcome =
      ⟨Except.ok ⟨400, DuckBody.errText ("Missing \x27snapshot_date\x27 in event")⟩,
        false, []⟩ := by
  unfold duckdbLambdaHandler
  rw [h]

/-- C8 witness: the event has no `snapshot_date` entry. -/
theorem merge_missing_snapshot_date_witness :
    duckdbLambdaHandler SnapInput.absent (Except.ok ()) (Except.ok ("url")) =
      ⟨Except.ok ⟨400, DuckBody.errText ("Missing \x27snapshot_date\x27 in event")⟩,
        false, []⟩ :=
  merge_missing_snapshot_date SnapInput.absent (Except.ok ()) (Except.ok ("url")) rfl

lemma databaseKey_not_shard (d : String) :
    strStartsWith ("database/scraped_data_" ++ d ++ ".parquet") ("snapshot_date/")
      = false := by
  simp [strStartsWith, String.data_append, List.isPrefixOf]

/-- C9: if the DuckDB COPY step raises, the merge handler catches it and
returns a structured error payload (status 500 carrying the error text)
instead of crashing unhandled, having written nothing; moreover no execution
path of the merge handler ever writes a key under the `snapshot_date/` shard
area, so the already-written crawl shards are untouched by a failed (or any)
merge. -/
theorem merge_engine_error_contained (snap : SnapInput) (d : String) (e : String)
    (tailOutcome : Except String String) (h : resolveSnapshotDate snap = some d) :
    duckdbLambdaHandler snap (Except.error e) tailOutcome =
      ⟨Except.ok ⟨500, DuckBody.errText e⟩, true, []⟩ ∧
    (∀ snap2 copy2 tail2 k, k ∈ (duckdbLambdaHandler snap2 copy2 tail2).s3Writes →
      strStartsWith k ("snapshot_date/") = false) := by
  constructor
  · unfold duckdbLambdaHandler
    rw [h]
  · intro snap2 copy2 tail2 k hk
    unfold duckdbLambdaHandler at hk
    cases hres : resolveSnapshotDate snap2 with
    | none => rw [hres] at hk; simp at hk
    | some d2 =>
      rw [hres] at hk
      cases copy2 with
      | error e2 => simp at hk
      | ok u =>
        cases tail2 with
        | error e2 =>
          simp at hk
          rw [hk]
          exact databaseKey_not_shard d2
        | ok url =>
          simp at hk
          rw [hk]
          exact databaseKey_not_shard d2

/-- C9 witness: a failing COPY for a present date. -/
theorem merge_engine_error_contained_witness :
    duckdbLambdaHandler (SnapInput.strVal ("2025-01-01")) (Except.error ("COPY failed"))
        (Except.ok ("url")) =
      ⟨Except.ok ⟨500, DuckBody.errText ("COPY failed")⟩, true, []⟩ :=
  (merge_engine_error_contained (SnapInput.strVal ("2025-01-01")) ("2025-01-01")
    ("COPY failed") (Except.ok ("url")) rfl).1

/-! ## Crawl handler shard key -/

/-- C10: when the crawl event is a dict that omits `snapshot_date`, the shard
is written under `snapshot_date/None/events_page_\x7bpage_number\x7d.json`
(the null sentinel rendered as the literal text `None`); the current-UTC-date
default is applied only when the event is not a dict (int, string or other
event shapes all use it), while a dict event always uses its own
`snapshot_date` entry verbatim. -/
theorem crawl_snapshot_date_none_key (pn : Option Int) (todayUtc : String) (b : String)
    (hb : b ≠ ("")) :
    crawlHandler (some b) (CrawlEvent.dictEvent pn none) todayUtc =
      ⟨200, some ("snapshot_date/None/events_page_" ++ toString (pn.getD 1) ++ ".json")⟩ ∧
    (∀ n, resolveCrawlSnapDate (CrawlEvent.intEvent n) todayUtc = some todayUtc) ∧
    (∀ s, resolveCrawlSnapDate (CrawlEvent.strEvent s) todayUtc = some todayUtc) ∧
    resolveCrawlSnapDate CrawlEvent.otherEvent todayUtc = some todayUtc ∧
    (∀ sd, resolveCrawlSnapDate (CrawlEvent.dictEvent pn sd) todayUtc = sd) := by
  refine ⟨?_, fun n => rfl, fun s => rfl, rfl, fun sd => rfl⟩
  rw [show crawlHandler (some b) (CrawlEvent.dictEvent pn none) todayUtc =
    (if b = ("") then ⟨500, none⟩
      else ⟨200, some (crawlS3Key (CrawlEvent.dictEvent pn none) todayUtc)⟩ :
        CrawlHandlerResult) from rfl]
  rw [if_neg hb]
  have h1 : crawlS3Key (CrawlEvent.dictEvent pn none) todayUtc =
      "snapshot_date/" ++ "None" ++ "/events_page_" ++ toString (pn.getD 1) ++ ".json" := rfl
  rw [h1, show ("snapshot_date/" ++ "None" ++ "/events_page_" : String) =
    "snapshot_date/None/events_page_" from rfl]

/-- C10 witness: a dict event with `page_number = 2` and no `snapshot_date`. -/
theorem crawl_snapshot_date_none_key_witness :
    crawlHandler (some ("bkt")) (CrawlEvent.dictEvent (some 2) none) ("2026-10-12") =
      ⟨200, some ("snapshot_date/None/events_page_" ++
        toString ((some (2 : Int)).getD 1) ++ ".json")⟩ :=
  (crawl_snapshot_date_none_key (some 2) ("2026-10-12") ("bkt") (by decide)).1

end Cultura
